import Mathlib

/-!
Shallow embedding of the Task Store Service of the repository
Panaversity_400_CloudNative_AI, consolidating the todo/task CRUD variants:

* `CRUD`       — Learning/03_CRUD_ErrorHandling_Tests/main.py
                 (in-memory list store; handlers return either a message/item
                 envelope or a pair of an error envelope and the code 404).
* `MultiStage` — Learning/Docker/10_multiStage_container_build/main.py
                 (same in-memory store; errors raise HTTPException 404, and
                 the list endpoint raises 404 on an empty store).
* `TaskDocker` — Learning/Docker/task_management_docker/main.py
                 (SQL-backed store over the Task row model).
* `DepInj`     — Learning/04_dependencyInjection_SQLmodel_EnvironmentConfig/main.py
                 (SQL-backed; the single-task read returns a bare error
                 envelope without raising).

Module-level mutable state (the todo_items list, the database session) is
embedded by explicit state passing: each handler takes the store before the
call and returns the store after the call together with its response value.
Python ints are Int; the path parameters declared as int are Int as well.
-/

/-- The Todo_Item pydantic model, defined identically in
03_CRUD_ErrorHandling_Tests/main.py and 10_multiStage_container_build/main.py:
item_id, title and description are required fields supplied by the caller,
completed defaults to false. -/
structure Todo_Item where
  item_id : Int
  title : String
  description : String
  completed : Bool := false
deriving DecidableEq, Inhabited

namespace CRUD

/-- Response value of a handler in 03_CRUD_ErrorHandling_Tests/main.py:
either the success envelope with message and item, or the value
returned on the error path, which is the pair of the error envelope
and the numeric code 404 (the handler returns the tuple; it does not
raise). -/
inductive Resp where
  | ok (message : String) (item : Todo_Item)
  | errBody (error : String) (code : Nat)
deriving DecidableEq

/-- GET /todo of 03_CRUD_ErrorHandling_Tests/main.py: returns the whole
todo_items list unconditionally. -/
def get_todo (todo_items : List Todo_Item) : List Todo_Item :=
  todo_items

/-- POST /todo of 03_CRUD_ErrorHandling_Tests/main.py: appends the
caller-supplied item to todo_items and returns the created envelope with
that same item. No identifier is assigned by the handler. -/
def create_todo (todo_items : List Todo_Item) (item : Todo_Item) :
    List Todo_Item × Resp :=
  (todo_items ++ [item], .ok "Todo item created" item)

/-- PATCH /todo/item_id/completed of 03_CRUD_ErrorHandling_Tests/main.py:
if item_id is not in range(len(todo_items)) the error pair is returned,
otherwise the completed flag of the element at position item_id is set and
the updated stored element is returned. -/
def update_todo (todo_items : List Todo_Item) (item_id : Int) (completed : Bool) :
    List Todo_Item × Resp :=
  if (todo_items.length : Int) ≤ item_id ∨ item_id < 0 then
    (todo_items, .errBody "Item not found" 404)
  else
    let i := item_id.toNat
    let updated := todo_items.set i { todo_items.getD i default with completed := completed }
    (updated, .ok "Todo item updated" (updated.getD i default))

/-- DELETE /todo/item_id of 03_CRUD_ErrorHandling_Tests/main.py. The source
scans i over range(len(todo_items)) and pops at the first i equal to
item_id; the scan succeeds exactly when 0 ≤ item_id < len(todo_items), in
which case pop removes and returns the element at that position. Otherwise
the loop falls through to the error pair. -/
def delete_todo (todo_items : List Todo_Item) (item_id : Int) :
    List Todo_Item × Resp :=
  if 0 ≤ item_id ∧ item_id < (todo_items.length : Int) then
    (todo_items.eraseIdx item_id.toNat,
     .ok "Todo item deleted" (todo_items.getD item_id.toNat default))
  else
    (todo_items, .errBody "Item not found" 404)

/-- The HTTP result of DELETE /todo/item_id in
03_CRUD_ErrorHandling_Tests/main.py. The handler never raises
HTTPException and never returns a Response object, so FastAPI
JSON-encodes whatever value it returns, the error tuple included, and
sends it at the default status 200: the code 404 inside the tuple stays
in the body and never becomes the HTTP status. The test file of the same
lesson hedges on exactly this, accepting either status for the error
cases. -/
def delete_todo_http (todo_items : List Todo_Item) (item_id : Int) :
    Nat × (List Todo_Item × Resp) :=
  (200, delete_todo todo_items item_id)

/-- PUT /todo/item_id of 03_CRUD_ErrorHandling_Tests/main.py. The same scan
as delete_todo: when 0 ≤ item_id < len(todo_items) the element at position
item_id is overwritten with the caller-supplied item, which is returned;
otherwise the error pair is returned. -/
def replace_todo (todo_items : List Todo_Item) (item_id : Int) (item : Todo_Item) :
    List Todo_Item × Resp :=
  if 0 ≤ item_id ∧ item_id < (todo_items.length : Int) then
    (todo_items.set item_id.toNat item, .ok "Todo item replaced" item)
  else
    (todo_items, .errBody "Item not found" 404)

end CRUD

namespace MultiStage

/-- Response of the list endpoint in 10_multiStage_container_build/main.py:
the list itself, or the raised HTTPException with status and detail. -/
inductive ListResp where
  | ok (items : List Todo_Item)
  | httpExc (status : Nat) (detail : String)
deriving DecidableEq

/-- Response of an item endpoint in 10_multiStage_container_build/main.py. -/
inductive Resp where
  | ok (message : String) (item : Todo_Item)
  | httpExc (status : Nat) (detail : String)
deriving DecidableEq

/-- GET /todo of 10_multiStage_container_build/main.py: raises
HTTPException 404 when todo_items is empty (an empty list is falsy), and
returns the whole list otherwise. -/
def get_todo (todo_items : List Todo_Item) : ListResp :=
  if todo_items = [] then .httpExc 404 "No todo items found"
  else .ok todo_items

/-- DELETE /todo/item_id of 10_multiStage_container_build/main.py: the same
scan over range(len(todo_items)) as in the 03 variant, but the error path
raises HTTPException 404 instead of returning a tuple. -/
def delete_todo (todo_items : List Todo_Item) (item_id : Int) :
    List Todo_Item × Resp :=
  if 0 ≤ item_id ∧ item_id < (todo_items.length : Int) then
    (todo_items.eraseIdx item_id.toNat,
     .ok "Todo item deleted" (todo_items.getD item_id.toNat default))
  else
    (todo_items, .httpExc 404 "Item not found")

end MultiStage

namespace TaskDocker

/-- The Task row model imported by task_management_docker/main.py from its
sibling models.py. That models.py is not under src/; the module of the same
name in Learning/Docker/11_kubernetes_hello_search/models.py defines the
shape used here, matching the spec data model: id is the primary key
assigned by the store when left unset, title is required, description is
optional. -/
structure Task where
  id : Option Int := none
  title : String
  description : Option String := none
deriving DecidableEq, Inhabited

/-- An SQL store state: the rows of the task table in insertion order. -/
abbrev Db := List Task

/-- Modelled from the spec: the identifier assigned by the store on
creation. The relational backend (SQLModel over an integer primary key
with default None) assigns the next identifier, one more than the largest
identifier present, to a row committed with id unset. -/
def nextId (db : Db) : Int :=
  (db.filterMap Task.id).foldl max 0 + 1

/-- The session.get(Task, task_id) primary-key lookup: the row whose id
column equals task_id, if any. -/
def sessionGet (db : Db) (task_id : Int) : Option Task :=
  db.find? (fun t => t.id == some task_id)

/-- Result of POST /create_task: the committed row (with its id populated
by the database when the caller left it unset), or the integrity error the
database raises when the caller supplies an id already present. -/
inductive CreateResult where
  | ok (db : Db) (task : Task)
  | integrityError
deriving DecidableEq

/-- POST /create_task of task_management_docker/main.py: session.add,
commit, refresh. A task with id unset is inserted with the next identifier
assigned by the database; a task with an explicit fresh id is inserted as
given; an explicit id already present violates the primary key. The
response envelope carries the refreshed task. -/
def create_task (db : Db) (task : Task) : CreateResult :=
  match task.id with
  | none =>
      let t := { task with id := some (nextId db) }
      .ok (db ++ [t]) t
  | some i =>
      if db.any (fun t => t.id == some i) then .integrityError
      else .ok (db ++ [task]) task

/-- Response of GET /tasks/task_id in task_management_docker/main.py. -/
inductive TaskResp where
  | ok (task : Task)
  | httpExc (status : Nat) (detail : String)
deriving DecidableEq

/-- GET /tasks/task_id of task_management_docker/main.py: primary-key
lookup; raises HTTPException 404 when no row has that id. -/
def read_task (db : Db) (task_id : Int) : TaskResp :=
  match sessionGet db task_id with
  | none => .httpExc 404 "Task not found"
  | some t => .ok t

/-- The PUT /tasks/task_id request body together with which of its
optional fields the caller actually set: model_dump with exclude_unset
keeps exactly the fields present in the request JSON. title is a required
field of Task, so it is always set; id and description have defaults and
may be absent (outer none) or explicitly given (outer some). -/
structure TaskUpdatePayload where
  id : Option (Option Int) := none
  title : String
  description : Option (Option String) := none
deriving DecidableEq

/-- The setattr loop of update_task: each field present in the payload
overwrites the stored field, fields absent from the payload are kept. -/
def applyUpdate (t : Task) (p : TaskUpdatePayload) : Task :=
  { id := p.id.getD t.id
    title := p.title
    description := p.description.getD t.description }

/-- PUT /tasks/task_id of task_management_docker/main.py: primary-key
lookup, 404 when absent; otherwise every field set in the payload is
written onto the stored row and the row is committed and returned. -/
def update_task (db : Db) (task_id : Int) (p : TaskUpdatePayload) :
    Db × TaskResp :=
  match sessionGet db task_id with
  | none => (db, .httpExc 404 "Task not found")
  | some t =>
      let t2 := applyUpdate t p
      (db.map (fun x => if x.id == some task_id then t2 else x), .ok t2)

/-- Response of DELETE /tasks/task_id in task_management_docker/main.py:
the success envelope carries only a message, no task. -/
inductive DeleteResp where
  | okMsg (message : String)
  | httpExc (status : Nat) (detail : String)
deriving DecidableEq

/-- DELETE /tasks/task_id of task_management_docker/main.py: primary-key
lookup, 404 when absent; otherwise session.delete removes the row with
that primary key and the handler returns a message-only envelope. -/
def delete_task (db : Db) (task_id : Int) : Db × DeleteResp :=
  match sessionGet db task_id with
  | none => (db, .httpExc 404 "Task not found")
  | some _ =>
      (db.eraseP (fun t => t.id == some task_id),
       .okMsg "Task deleted successfully")

end TaskDocker

namespace DepInj

/-- The Task row model of
Learning/FastAPI/04_dependencyInjection_SQLmodel_EnvironmentConfig/db_schema.py:
integer primary key with default None, required title, optional
description, required user_id. -/
structure Task where
  id : Option Int := none
  title : String
  description : Option String := none
  user_id : Int
deriving DecidableEq

/-- Response of GET /tasks/task_id in
04_dependencyInjection_SQLmodel_EnvironmentConfig/main.py: either the
task envelope or the bare error envelope. The handler never raises and
never sets a status code on the error path. -/
inductive GetResp where
  | okTask (task : Task)
  | errBody (error : String)
deriving DecidableEq

/-- GET /tasks/task_id of
04_dependencyInjection_SQLmodel_EnvironmentConfig/main.py: primary-key
lookup; when no row has that id the handler returns the error envelope
(it does not raise HTTPException, unlike other handlers in the same
file). -/
def get_single_task (db : List Task) (task_id : Int) : GetResp :=
  match db.find? (fun t => t.id == some task_id) with
  | none => .errBody "Task not found"
  | some t => .okTask t

/-- The HTTP result of GET /tasks/task_id: since the handler returns a
plain dict and never raises or sets a status code, the response goes out
with the default status 200 on both paths. -/
def get_single_task_http (db : List Task) (task_id : Int) : Nat × GetResp :=
  (200, get_single_task db task_id)

end DepInj

/-- Fixture value used to instantiate theorems at concrete inputs. -/
def itemA : Todo_Item := { item_id := 7, title := "a", description := "da" }

/-- Fixture value with the same item_id as itemA but different title. -/
def itemB : Todo_Item := { item_id := 7, title := "b", description := "db" }

/-- Fixture value with a different item_id. -/
def itemC : Todo_Item := { item_id := 9, title := "c", description := "dc" }

/-- Fixture row for the SQL-backed store. -/
def taskW : TaskDocker.Task := { id := some 1, title := "w" }

/-- Fixture update payload: only the required title field is set. -/
def payloadW : TaskDocker.TaskUpdatePayload := { title := "nt" }

/-- C9: starting from an empty store, creating one task and then listing
returns exactly that one task, and the create response carries the created
record itself. -/
theorem c9_create_then_list_singleton (item : Todo_Item) :
    CRUD.get_todo (CRUD.create_todo [] item).1 = [item] ∧
    (CRUD.create_todo [] item).2 = CRUD.Resp.ok "Todo item created" item :=
  ⟨rfl, rfl⟩

/-- C10: when the addressed id is not present in the store (out of the
index range used for addressing), the failing update, delete and replace
calls leave the store exactly as it was. -/
theorem c10_error_atomicity (s : List Todo_Item) (item_id : Int)
    (completed : Bool) (item : Todo_Item)
    (h : item_id < 0 ∨ (s.length : Int) ≤ item_id) :
    (CRUD.update_todo s item_id completed).1 = s ∧
    (CRUD.delete_todo s item_id).1 = s ∧
    (CRUD.replace_todo s item_id item).1 = s := by
  have hg : ¬(0 ≤ item_id ∧ item_id < (s.length : Int)) := by omega
  refine ⟨?_, ?_, ?_⟩
  · unfold CRUD.update_todo
    rw [if_pos (Or.symm h)]
  · unfold CRUD.delete_todo
    rw [if_neg hg]
  · unfold CRUD.replace_todo
    rw [if_neg hg]

/-- Witness for c10_error_atomicity at the empty store and id 5. -/
theorem c10_error_atomicity_witness :
    (CRUD.update_todo [] 5 true).1 = [] ∧
    (CRUD.delete_todo [] 5).1 = [] ∧
    (CRUD.replace_todo [] 5 itemA).1 = [] :=
  c10_error_atomicity [] 5 true itemA (by simp)

/-- C3 counterexample: deleting the absent id 5 from the empty store in
the 03 variant produces the NotFound tuple, but the response goes out at
the default HTTP status 200, not 404: FastAPI serializes a returned
tuple into the body instead of reading a status code from it, so the
claim that the NotFound error is surfaced to the caller with HTTP
status 404 is false for this cited handler. -/
theorem c3_crud_delete_status_200 :
    CRUD.delete_todo_http [] 5 =
      (200, ([], CRUD.Resp.errBody "Item not found" 404)) ∧
    (200 : Nat) ≠ 404 :=
  ⟨rfl, by decide⟩

/-- C3 amended: deleting an id not present in the store yields a
NotFound error in both in-memory variants and leaves the store
unchanged; the multi-stage variant surfaces it by raising HTTPException
404, while the 03 variant returns the error-envelope/404 tuple
serialized in the body at the default HTTP status 200. -/
theorem c3_amended_delete_absent (s : List Todo_Item) (item_id : Int)
    (h : item_id < 0 ∨ (s.length : Int) ≤ item_id) :
    CRUD.delete_todo_http s item_id =
      (200, (s, CRUD.Resp.errBody "Item not found" 404)) ∧
    MultiStage.delete_todo s item_id =
      (s, MultiStage.Resp.httpExc 404 "Item not found") := by
  have hg : ¬(0 ≤ item_id ∧ item_id < (s.length : Int)) := by omega
  constructor
  · unfold CRUD.delete_todo_http CRUD.delete_todo
    rw [if_neg hg]
  · unfold MultiStage.delete_todo
    rw [if_neg hg]

/-- Witness for c3_amended_delete_absent at a one-element store and id 5. -/
theorem c3_delete_amended_witness :
    CRUD.delete_todo_http [itemA] 5 =
      (200, ([itemA], CRUD.Resp.errBody "Item not found" 404)) ∧
    MultiStage.delete_todo [itemA] 5 =
      ([itemA], MultiStage.Resp.httpExc 404 "Item not found") :=
  c3_amended_delete_absent [itemA] 5 (by simp)

/-- C6 counterexample: the claim says list succeeds on every store
including the empty one, but the multi-stage variant raises
HTTPException 404 on the empty store. -/
theorem c6_list_empty_fails :
    MultiStage.get_todo [] = MultiStage.ListResp.httpExc 404 "No todo items found" :=
  rfl

/-- C6 amended: list returns all tasks in insertion order; the 03 variant
succeeds on every store including the empty one, while the multi-stage
variant succeeds exactly on nonempty stores. -/
theorem c6_amended_list_behavior (s : List Todo_Item) :
    CRUD.get_todo s = s ∧
    (s ≠ [] → MultiStage.get_todo s = MultiStage.ListResp.ok s) := by
  refine ⟨rfl, fun h => ?_⟩
  unfold MultiStage.get_todo
  rw [if_neg h]

/-- Witness for c6_amended_list_behavior at a one-element store. -/
theorem c6_list_witness :
    CRUD.get_todo [itemA] = [itemA] ∧
    MultiStage.get_todo [itemA] = MultiStage.ListResp.ok [itemA] :=
  ⟨(c6_amended_list_behavior [itemA]).1,
   (c6_amended_list_behavior [itemA]).2 (by simp)⟩

/-- C2 counterexample: from the same empty store, two create calls that
differ only in the caller-supplied item_id store different identifiers
(5 and 9), so the identifier of the new task is determined by the caller,
not assigned by the store: the claim that the store, not the caller,
assigns the next identifier is false. -/
theorem c2_store_assignment_fails :
    (CRUD.create_todo [] { item_id := 5, title := "a", description := "x" }).1 =
      [{ item_id := 5, title := "a", description := "x", completed := false }] ∧
    (CRUD.create_todo [] { item_id := 9, title := "a", description := "x" }).1 =
      [{ item_id := 9, title := "a", description := "x", completed := false }] ∧
    (5 : Int) ≠ 9 :=
  ⟨rfl, rfl, by decide⟩

/-- C2 amended: create appends the incoming record to the store and
returns the stored record; the in-memory variant stores the
caller-supplied item_id verbatim and assigns no identifier, while the
SQL-backed variant assigns the next identifier exactly when the caller
leaves the id unset. -/
theorem c2_amended_create_appends (s : List Todo_Item) (item : Todo_Item)
    (db : TaskDocker.Db) (task : TaskDocker.Task) (h : task.id = none) :
    CRUD.create_todo s item =
      (s ++ [item], CRUD.Resp.ok "Todo item created" item) ∧
    TaskDocker.create_task db task =
      TaskDocker.CreateResult.ok
        (db ++ [{ task with id := some (TaskDocker.nextId db) }])
        { task with id := some (TaskDocker.nextId db) } := by
  refine ⟨rfl, ?_⟩
  unfold TaskDocker.create_task
  rw [h]

/-- Witness for c2_amended_create_appends at the empty stores. -/
theorem c2_create_witness :
    CRUD.create_todo [] itemA =
      ([itemA], CRUD.Resp.ok "Todo item created" itemA) ∧
    TaskDocker.create_task [] { title := "w" } =
      TaskDocker.CreateResult.ok
        [{ title := "w", id := some (TaskDocker.nextId []) }]
        { title := "w", id := some (TaskDocker.nextId []) } :=
  c2_amended_create_appends [] itemA [] { title := "w" } rfl

/-- C5 counterexample: deleting the present id 1 from the SQL-backed
store removes the row but the response envelope is message-only: the
DeleteResp.okMsg constructor carries no task at all, so the deleted
record is not returned to the caller, contradicting the claim that
delete returns the deleted record itself. -/
theorem c5_docker_delete_returns_no_record :
    TaskDocker.delete_task [taskW] 1 =
      ([], TaskDocker.DeleteResp.okMsg "Task deleted successfully") := by
  decide

/-- C5 amended: deleting a present id removes that task from the store;
the in-memory variant returns the deleted record while the SQL-backed
variant returns only a success message. -/
theorem c5_amended_delete_present (s : List Todo_Item) (item_id : Int)
    (h : 0 ≤ item_id ∧ item_id < (s.length : Int))
    (db : TaskDocker.Db) (task_id : Int) (t : TaskDocker.Task)
    (h2 : TaskDocker.sessionGet db task_id = some t) :
    CRUD.delete_todo s item_id =
      (s.eraseIdx item_id.toNat,
       CRUD.Resp.ok "Todo item deleted" (s.getD item_id.toNat default)) ∧
    (CRUD.delete_todo s item_id).1.length + 1 = s.length ∧
    TaskDocker.delete_task db task_id =
      (db.eraseP (fun x => x.id == some task_id),
       TaskDocker.DeleteResp.okMsg "Task deleted successfully") := by
  have hlen : item_id.toNat < s.length := by omega
  refine ⟨?_, ?_, ?_⟩
  · unfold CRUD.delete_todo
    rw [if_pos h]
  · unfold CRUD.delete_todo
    rw [if_pos h]
    simpa using List.length_eraseIdx_add_one hlen
  · unfold TaskDocker.delete_task
    rw [h2]

/-- Witness for c5_amended_delete_present at one-element stores. -/
theorem c5_delete_witness :
    CRUD.delete_todo [itemA] 0 =
      ([], CRUD.Resp.ok "Todo item deleted" itemA) ∧
    TaskDocker.delete_task [taskW] 1 =
      ([], TaskDocker.DeleteResp.okMsg "Task deleted successfully") := by
  have h := c5_amended_delete_present [itemA] 0 (by simp) [taskW] 1 taskW (by decide)
  exact ⟨h.1, h.2.2⟩

/-- C7 counterexample: on the empty store, the dependency-injection
variant answers a get for id 1 with the bare error envelope at the
default HTTP status 200, not 404: the claim that the NotFound error is
surfaced with status 404 is false for this cited handler. -/
theorem c7_depinj_get_not_404 :
    DepInj.get_single_task_http [] 1 =
      (200, DepInj.GetResp.errBody "Task not found") ∧
    (200 : Nat) ≠ 404 :=
  ⟨rfl, by decide⟩

/-- C7 amended: a get for an id not present in the store yields a
NotFound error result rather than a task; the docker variant surfaces it
by raising HTTPException 404, while the dependency-injection variant
returns the error envelope with the default status 200. -/
theorem c7_amended_get_absent (db : TaskDocker.Db) (task_id : Int)
    (h : TaskDocker.sessionGet db task_id = none)
    (db2 : List DepInj.Task) (tid2 : Int)
    (h2 : db2.find? (fun t => t.id == some tid2) = none) :
    TaskDocker.read_task db task_id =
      TaskDocker.TaskResp.httpExc 404 "Task not found" ∧
    DepInj.get_single_task_http db2 tid2 =
      (200, DepInj.GetResp.errBody "Task not found") := by
  constructor
  · unfold TaskDocker.read_task
    rw [h]
  · unfold DepInj.get_single_task_http DepInj.get_single_task
    rw [h2]

/-- Witness for c7_amended_get_absent at the empty stores and id 1. -/
theorem c7_get_witness :
    TaskDocker.read_task [] 1 =
      TaskDocker.TaskResp.httpExc 404 "Task not found" ∧
    DepInj.get_single_task_http [] 1 =
      (200, DepInj.GetResp.errBody "Task not found") :=
  c7_amended_get_absent [] 1 rfl [] 1 rfl

/-- Helper: writing back the element at position i with only its
completed flag changed never changes the item_id read at any position. -/
theorem getD_set_completed_item_id (s : List Todo_Item) (i j : Nat) (c : Bool) :
    ((s.set i { s.getD i default with completed := c }).getD j default).item_id =
      (s.getD j default).item_id := by
  simp only [List.getD_eq_getElem?_getD, List.getElem?_set]
  by_cases hij : i = j
  · subst hij
    simp only [if_pos rfl]
    by_cases hlt : i < s.length
    · simp only [if_pos hlt, Option.getD_some]
      rfl
    · simp [if_neg hlt, List.getElem?_eq_none (Nat.le_of_not_lt hlt)]
  · simp only [if_neg hij]

/-- C1 counterexample: the store enforces neither uniqueness nor
immutability of identifiers. Two creates from the empty store both
succeed with the same item_id 7, so two stored tasks share an
identifier; replacing position 0 of a one-element store overwrites the
stored item_id 7 with 9, so the identifier of an existing task changes;
and deleting position 0 of a two-element store moves the surviving task
from address 1 to address 0, changing the identifier under which it is
addressed. -/
theorem c1_id_uniqueness_immutability_fails :
    ((CRUD.create_todo (CRUD.create_todo [] itemA).1 itemB).1 = [itemA, itemB] ∧
      itemA.item_id = itemB.item_id) ∧
    ((CRUD.replace_todo [itemA] 0 itemC).1 = [itemC] ∧
      itemA.item_id ≠ itemC.item_id) ∧
    ((CRUD.delete_todo [itemA, itemC] 0).1 = [itemC] ∧
      ([itemA, itemC] : List Todo_Item).getD 1 default =
        ([itemC] : List Todo_Item).getD 0 default) := by
  decide

/-- C1 amended: identifier uniqueness is not enforced and identifiers
are not immutable (replace may overwrite a stored item_id and delete
shifts later tasks to lower addresses); what does hold is that create
leaves every existing stored task in place unchanged, and update never
changes the item_id of any stored task. -/
theorem c1_amended_id_behavior (s : List Todo_Item) (item : Todo_Item)
    (item_id : Int) (completed : Bool) (j : Nat) :
    (CRUD.create_todo s item).1.take s.length = s ∧
    ((CRUD.update_todo s item_id completed).1.getD j default).item_id =
      (s.getD j default).item_id := by
  constructor
  · simp [CRUD.create_todo, List.take_left]
  · unfold CRUD.update_todo
    split
    · rfl
    · exact getD_set_completed_item_id s item_id.toNat j completed

/-- C4: the semantics of replace and update. A successful replace stores
the supplied task in full at the addressed position and leaves every
other position unchanged; a successful in-memory update sets exactly the
completed flag of the addressed task, keeping its other fields and every
other task unchanged; a successful SQL-backed update writes exactly the
fields present in the payload onto the addressed row (absent fields are
kept), returns the updated row, and leaves every row with a different id
unchanged. -/
theorem c4_replace_update_semantics (s : List Todo_Item) (i : Int)
    (new_item : Todo_Item) (completed : Bool)
    (hi : 0 ≤ i ∧ i < (s.length : Int))
    (db : TaskDocker.Db) (task_id : Int) (t : TaskDocker.Task)
    (p : TaskDocker.TaskUpdatePayload)
    (ht : TaskDocker.sessionGet db task_id = some t) :
    ((CRUD.replace_todo s i new_item).1[i.toNat]? = some new_item ∧
     ∀ j : Nat, j ≠ i.toNat → (CRUD.replace_todo s i new_item).1[j]? = s[j]?) ∧
    ((CRUD.update_todo s i completed).1[i.toNat]? =
        some { s.getD i.toNat default with completed := completed } ∧
     ∀ j : Nat, j ≠ i.toNat → (CRUD.update_todo s i completed).1[j]? = s[j]?) ∧
    ((TaskDocker.update_task db task_id p).2 =
        TaskDocker.TaskResp.ok (TaskDocker.applyUpdate t p) ∧
     (TaskDocker.applyUpdate t p).title = p.title ∧
     (p.id = none → (TaskDocker.applyUpdate t p).id = t.id) ∧
     (∀ v, p.id = some v → (TaskDocker.applyUpdate t p).id = v) ∧
     (p.description = none →
        (TaskDocker.applyUpdate t p).description = t.description) ∧
     (∀ v, p.description = some v →
        (TaskDocker.applyUpdate t p).description = v) ∧
     (∀ (j : Nat) (x : TaskDocker.Task), db[j]? = some x →
        x.id ≠ some task_id →
        (TaskDocker.update_task db task_id p).1[j]? = some x)) := by
  have hiN : i.toNat < s.length := by omega
  have hupd : ¬((s.length : Int) ≤ i ∨ i < 0) := by omega
  refine ⟨⟨?_, ?_⟩, ⟨?_, ?_⟩, ?_, ?_, ?_, ?_, ?_, ?_, ?_⟩
  · unfold CRUD.replace_todo
    rw [if_pos hi]
    simp [List.getElem?_set, hiN]
  · intro j hj
    unfold CRUD.replace_todo
    rw [if_pos hi]
    simp only [List.getElem?_set]
    rw [if_neg (fun h => hj h.symm)]
  · unfold CRUD.update_todo
    rw [if_neg hupd]
    simp [List.getElem?_set, hiN]
  · intro j hj
    unfold CRUD.update_todo
    rw [if_neg hupd]
    simp only [List.getElem?_set]
    rw [if_neg (fun h => hj h.symm)]
  · unfold TaskDocker.update_task
    rw [ht]
  · rfl
  · intro h
    unfold TaskDocker.applyUpdate
    rw [h]
    rfl
  · intro v h
    unfold TaskDocker.applyUpdate
    rw [h]
    rfl
  · intro h
    unfold TaskDocker.applyUpdate
    rw [h]
    rfl
  · intro v h
    unfold TaskDocker.applyUpdate
    rw [h]
    rfl
  · intro j x hx hne
    unfold TaskDocker.update_task
    rw [ht]
    simp [List.getElem?_map, hx, hne]

/-- Witness for c4_replace_update_semantics: replace at position 0 of a
one-element store, update at position 0, and an SQL update of the row
with id 1. -/
theorem c4_replace_update_witness :
    (CRUD.replace_todo [itemA] 0 itemC).1[0]? = some itemC ∧
    (CRUD.update_todo [itemA] 0 true).1[0]? =
      some { itemA with completed := true } ∧
    (TaskDocker.update_task [taskW] 1 payloadW).2 =
      TaskDocker.TaskResp.ok (TaskDocker.applyUpdate taskW payloadW) := by
  have h := c4_replace_update_semantics [itemA] 0 itemC true (by simp)
    [taskW] 1 taskW payloadW (by decide)
  exact ⟨h.1.1, h.2.1.1, h.2.2.1⟩

/-- Helper: a left fold of max never drops below its seed. -/
theorem le_foldl_max (l : List Int) (a : Int) : a ≤ l.foldl max a := by
  induction l generalizing a with
  | nil => exact le_refl a
  | cons h t ih => exact le_trans (le_max_left a h) (ih (max a h))

/-- Helper: every member of a list is bounded by a left fold of max. -/
theorem mem_le_foldl_max (l : List Int) :
    ∀ (a x : Int), x ∈ l → x ≤ l.foldl max a := by
  induction l with
  | nil =>
      intro a x hx
      cases hx
  | cons h t ih =>
      intro a x hx
      rcases List.mem_cons.mp hx with rfl | hx2
      · exact le_trans (le_max_right a x) (le_foldl_max t (max a x))
      · exact ih (max a h) x hx2

/-- Helper: nextId is strictly larger than every id present in the
store, so the id the database assigns to a newly committed row is
fresh. -/
theorem id_lt_nextId (db : TaskDocker.Db) (t : TaskDocker.Task) (n : Int)
    (ht : t ∈ db) (hn : t.id = some n) : n < TaskDocker.nextId db := by
  have hmem : n ∈ db.filterMap TaskDocker.Task.id :=
    List.mem_filterMap.mpr ⟨t, ht, hn⟩
  have hle := mem_le_foldl_max (db.filterMap TaskDocker.Task.id) 0 n hmem
  unfold TaskDocker.nextId
  omega

/-- Helper: a primary-key lookup in a store extended with a row whose id
occurs nowhere in the store finds exactly the new row. -/
theorem sessionGet_append_fresh (db : TaskDocker.Db) (t : TaskDocker.Task)
    (n : Int) (hid : t.id = some n)
    (hfresh : ∀ x ∈ db, x.id ≠ some n) :
    TaskDocker.sessionGet (db ++ [t]) n = some t := by
  unfold TaskDocker.sessionGet
  rw [List.find?_append]
  have h1 : db.find? (fun x => x.id == some n) = none :=
    List.find?_eq_none.mpr (fun x hx => by simp [hfresh x hx])
  rw [h1]
  simp [List.find?_cons, hid]

/-- Helper: reading back a freshly appended row by its id returns that
row. -/
theorem read_task_append_fresh (db : TaskDocker.Db) (t : TaskDocker.Task)
    (n : Int) (hid : t.id = some n)
    (hfresh : ∀ x ∈ db, x.id ≠ some n) :
    TaskDocker.read_task (db ++ [t]) n = TaskDocker.TaskResp.ok t := by
  unfold TaskDocker.read_task
  rw [sessionGet_append_fresh db t n hid hfresh]

/-- C8: round-trip. Whenever create succeeds, reading back the id of the
record returned by create yields exactly that record. -/
theorem c8_create_then_get_roundtrip (db : TaskDocker.Db)
    (task : TaskDocker.Task) (db2 : TaskDocker.Db) (t2 : TaskDocker.Task)
    (n : Int)
    (hc : TaskDocker.create_task db task = TaskDocker.CreateResult.ok db2 t2)
    (hid : t2.id = some n) :
    TaskDocker.read_task db2 n = TaskDocker.TaskResp.ok t2 := by
  cases htask : task.id with
  | none =>
      simp only [TaskDocker.create_task, htask,
        TaskDocker.CreateResult.ok.injEq] at hc
      obtain ⟨h1, h2⟩ := hc
      subst h2
      subst h1
      have hn : TaskDocker.nextId db = n := by simpa using hid
      refine read_task_append_fresh db _ n hid (fun x hx heq => ?_)
      have := id_lt_nextId db x n hx heq
      omega
  | some i =>
      simp only [TaskDocker.create_task, htask] at hc
      by_cases hany : db.any (fun t => t.id == some i) = true
      · rw [if_pos hany] at hc
        cases hc
      · rw [if_neg hany] at hc
        simp only [TaskDocker.CreateResult.ok.injEq] at hc
        obtain ⟨h1, h2⟩ := hc
        subst h2
        subst h1
        have hin : i = n := by
          rw [htask] at hid
          exact Option.some.inj hid
        rw [Bool.not_eq_true] at hany
        have hall := List.any_eq_false.mp hany
        refine read_task_append_fresh db _ n hid (fun x hx heq => ?_)
        exact hall x hx (by simp [heq, hin])

/-- Witness for c8_create_then_get_roundtrip: creating from the empty
store a task with id unset assigns id 1, and reading id 1 returns the
created record. -/
theorem c8_roundtrip_witness :
    TaskDocker.read_task [taskW] 1 = TaskDocker.TaskResp.ok taskW :=
  c8_create_then_get_roundtrip [] { title := "w" } [taskW] taskW 1
    (by decide) rfl
